import Mathlib

/-!
Shallow embedding of `src/pcsx2/Host/SDLAudioStream.cpp` (the SDL3 audio-output
backend of the emulator's audio streaming core), together with theorems checking
the natural-language specification against it.

Modelling conventions:
* Machine integers (`u32`, `int`) become `Nat`; all the quantities involved
  (byte counts, frame counts, sample rates, latencies) are small enough that no
  overflow wrap is reachable, and the source performs only division and
  comparison on them.
* The opaque `SDL_AudioStream*` handle becomes `Option Nat` (`none` = null).
* The heap scratch array `std::unique_ptr<SampleType[]>` is tracked by its
  allocation length in `SampleType` elements (`Option Nat`, `none` = null).
* Backend (SDL) responses that the code consumes are passed in explicitly as a
  `BackendOpen` record; observable backend interactions (pause/resume calls,
  the frame-count hint, warnings) are returned as part of the result so that
  theorems can talk about them.
-/

namespace SDLAudio

/-- Size in bytes of one `SampleType` (`s16`; the stream negotiates
`SDL_AUDIO_S16`), i.e. `sizeof(SampleType) = 2`. -/
def sizeofSampleType : Nat := 2

/-- The logical channel roles `READ_CHANNEL_*` used as template arguments of
`SampleReaderImpl` in the source. -/
inductive ReadChannel where
  | frontLeft
  | frontRight
  | frontCenter
  | lfe
  | rearLeft
  | rearRight
  | sideLeft
  | sideRight
deriving DecidableEq, Repr

/-- The enumerated expansion modes (`AudioExpansionMode`), in declaration
order; `Count` is the number of enumerators, i.e. 6. -/
inductive AudioExpansionMode where
  | Disabled
  | StereoLFE
  | Quadraphonic
  | QuadraphonicLFE
  | Surround51
  | Surround71
deriving DecidableEq, Repr, Fintype

/-- The ordinal of a mode, i.e. `static_cast<size_t>(mode)`. -/
def AudioExpansionMode.toOrdinal : AudioExpansionMode → Nat
  | .Disabled => 0
  | .StereoLFE => 1
  | .Quadraphonic => 2
  | .QuadraphonicLFE => 3
  | .Surround51 => 4
  | .Surround71 => 5

/-- The value `static_cast<size_t>(AudioExpansionMode::Count)`, the size of the
static reader table. -/
def AudioExpansionMode.countModes : Nat := 6

/-- A sample-reader function value as it appears in the static table: either
the plain stereo reader `&StereoSampleReaderImpl` (the `Disabled` entry), or an
instance `&SampleReaderImpl<mode, channels...>` identified by its template
arguments. -/
inductive SampleReader where
  | stereoSampleReaderImpl
  | sampleReaderImpl (mode : AudioExpansionMode) (channels : List ReadChannel)
deriving DecidableEq, Repr

/-- The expansion mode a table entry is registered for (the `Disabled` slot
holds `&StereoSampleReaderImpl`; every other slot holds a `SampleReaderImpl`
instantiated at its own mode). -/
def SampleReader.modeOf : SampleReader → AudioExpansionMode
  | .stereoSampleReaderImpl => .Disabled
  | .sampleReaderImpl m _ => m

/-- The static `sample_readers` table from `SDLAudioStream::OpenDevice`,
entry-for-entry in source order. -/
def sample_readers : List SampleReader :=
  [ SampleReader.stereoSampleReaderImpl,
    SampleReader.sampleReaderImpl .StereoLFE
      [.frontLeft, .frontRight, .lfe],
    SampleReader.sampleReaderImpl .Quadraphonic
      [.frontLeft, .frontRight, .rearLeft, .rearRight],
    SampleReader.sampleReaderImpl .QuadraphonicLFE
      [.frontLeft, .frontRight, .lfe, .rearLeft, .rearRight],
    SampleReader.sampleReaderImpl .Surround51
      [.frontLeft, .frontRight, .frontCenter, .lfe, .rearLeft, .rearRight],
    SampleReader.sampleReaderImpl .Surround71
      [.frontLeft, .frontRight, .frontCenter, .lfe, .sideLeft, .sideRight,
       .rearLeft, .rearRight] ]

/-- The table lookup `sample_readers[static_cast<size_t>(mode)]` (total by the
in-bounds property proved below; out of range would return the default). -/
def tableEntry (m : AudioExpansionMode) : SampleReader :=
  sample_readers.getD m.toOrdinal SampleReader.stereoSampleReaderImpl

/-- The fields of `AudioStreamParameters` that `SDLAudioStream` reads. -/
structure AudioStreamParameters where
  expansion_mode : AudioExpansionMode
  buffer_ms : Nat
  output_latency_ms : Nat
  minimal_output_latency : Bool
deriving DecidableEq, Repr

/-- The mutable state of an `SDLAudioStream` object (fields of the class and
of its `AudioStream` base that this translation unit touches). -/
structure StreamState where
  m_sample_rate : Nat
  m_output_channels : Nat
  m_parameters : AudioStreamParameters
  m_device_stream : Option Nat := none
  m_sample_buffer : Option Nat := none
  m_sample_buffer_size : Nat := 0
  m_paused : Bool := false
deriving DecidableEq, Repr

/-- `SDLAudioStream::IsOpen`: `m_device_stream != nullptr`. -/
def IsOpen (s : StreamState) : Bool :=
  s.m_device_stream.isSome

/-- `SDLAudioStream::CalculateSampleCount`:
`bytes_len / sizeof(SampleType) / m_output_channels` (integer division). -/
def CalculateSampleCount (s : StreamState) (bytes_len : Nat) : Nat :=
  bytes_len / sizeofSampleType / s.m_output_channels

/-- Modelled from the spec: `GetBufferSizeForMS` is defined in
`AudioStream.cpp`, which is not part of the available fragment; the spec
(section 4.2, `RequiredFrames`) defines it as
`ceil(sampleRate * latencyMs / 1000)` with integer-safe rounding. -/
def GetBufferSizeForMS (sample_rate latency_ms : Nat) : Nat :=
  (sample_rate * latency_ms + 999) / 1000

/-- The state of a freshly constructed `SDLAudioStream` (constructor only
stores rate and parameters; the in-class member initializers give
`m_device_stream = nullptr`, `m_sample_buffer = nullptr`,
`m_sample_buffer_size = 0`, `m_paused = false`). -/
def initialState (rate channels : Nat) (p : AudioStreamParameters) : StreamState :=
  { m_sample_rate := rate
    m_output_channels := channels
    m_parameters := p }

/-- The backend (SDL) responses consumed by one `OpenDevice` call:
`SDL_OpenAudioDeviceStream` returns a handle or null, and
`SDL_GetAudioDeviceFormat` either succeeds writing a frame count or fails. -/
structure BackendOpen where
  openResult : Option Nat
  deviceFormatOk : Bool
  obtainedSampleFrames : Nat
deriving DecidableEq, Repr

/-- Everything observable about one `OpenDevice` call: its return value,
whether it set the caller's `Error`, the frame-count hint it passed to
`SDL_SetHint(SDL_HINT_AUDIO_DEVICE_SAMPLE_FRAMES)`, the reader it handed to
the base stream on success, and the resulting object state. -/
structure OpenOutcome where
  success : Bool
  errorSet : Bool
  hintFrames : Nat
  selectedReader : Option SampleReader
  state : StreamState
deriving DecidableEq, Repr

/-- `SDLAudioStream::OpenDevice`, with the backend's responses supplied as
`b`. Mirrors the source statement by statement: compute the frame hint from
exactly one of the two latency parameters, open the device stream (on null,
set the error and return false), query the device format (on failure the
local `obtained_sample_frames` keeps its `0` initializer and only a warning
is logged), then set `m_sample_buffer_size = CalculateSampleCount(
obtained_sample_frames)`, allocate the scratch array with that many
`SampleType` elements, and select the reader for the configured mode. -/
def OpenDevice (s : StreamState) (b : BackendOpen) : OpenOutcome :=
  let sample_frames := GetBufferSizeForMS s.m_sample_rate
    (if s.m_parameters.minimal_output_latency then s.m_parameters.buffer_ms
     else s.m_parameters.output_latency_ms)
  match b.openResult with
  | none =>
      { success := false
        errorSet := true
        hintFrames := sample_frames
        selectedReader := none
        state := { s with m_device_stream := none } }
  | some handle =>
      let s1 := { s with m_device_stream := some handle }
      let obtained_sample_frames :=
        if b.deviceFormatOk then b.obtainedSampleFrames else 0
      let size := CalculateSampleCount s1 obtained_sample_frames
      { success := true
        errorSet := false
        hintFrames := sample_frames
        selectedReader := some (tableEntry s.m_parameters.expansion_mode)
        state := { s1 with
                    m_sample_buffer := some size
                    m_sample_buffer_size := size } }

/-- `AudioStream::CreateSDLAudioStream`: if the SDL audio subsystem cannot be
brought up, return no object; otherwise construct a fresh stream and open it,
resetting (destroying) the object when `OpenDevice` fails. -/
def CreateSDLAudioStream (sdlInitOk : Bool) (rate channels : Nat)
    (p : AudioStreamParameters) (b : BackendOpen) : Option StreamState :=
  if sdlInitOk then
    let out := OpenDevice (initialState rate channels p) b
    if out.success then some out.state else none
  else
    none

/-- Everything observable about one `AudioCallback` invocation: the frame
count passed to `ReadFrames`, whether the over-request warning was logged,
and the number of `SampleType` elements `ReadFrames` writes into the scratch
array (it fills exactly `frameCount` interleaved frames of
`m_output_channels` samples each). -/
structure CallbackOutcome where
  framesRead : Nat
  warned : Bool
  samplesWritten : Nat
deriving DecidableEq, Repr

/-- `SDLAudioStream::AudioCallback`: derive the frame count from the
requested byte length, clamp to `m_sample_buffer_size` with a warning when it
is exceeded, then pull that many frames from the producer into the scratch
buffer. -/
def AudioCallback (s : StreamState) (additional_amount : Nat) : CallbackOutcome :=
  let num_frames := CalculateSampleCount s additional_amount
  if num_frames > s.m_sample_buffer_size then
    { framesRead := s.m_sample_buffer_size
      warned := true
      samplesWritten := s.m_sample_buffer_size * s.m_output_channels }
  else
    { framesRead := num_frames
      warned := false
      samplesWritten := num_frames * s.m_output_channels }

/-- `SDL_GetAudioStreamDevice`: returns the device id of the stream; per the
SDL documentation, passing a null stream returns the invalid device id `0`
(SDL validates its argument rather than dereferencing it). -/
def getAudioStreamDevice : Option Nat → Nat
  | none => 0
  | some h => h

/-- Observable events of `SetPaused`, in the order the source performs them:
backend pause/resume calls (carrying the device id they were given) and the
write to the recorded `m_paused` flag. -/
inductive Event where
  | pauseDevice (id : Nat)
  | resumeDevice (id : Nat)
  | setPausedFlag (b : Bool)
deriving DecidableEq, Repr

/-- Whether an event is a backend pause call. -/
def Event.isPauseCall : Event → Bool
  | .pauseDevice _ => true
  | _ => false

/-- Number of backend pause calls in an event trace. -/
def pauseCallCount (es : List Event) : Nat :=
  (es.filter Event.isPauseCall).length

/-- `SDLAudioStream::SetPaused`: early-return when the requested state equals
`m_paused`; otherwise fetch the device id, instruct the backend to pause or
resume, and only then record the new flag. The returned event list is in
source execution order. -/
def SetPaused (s : StreamState) (paused : Bool) : StreamState × List Event :=
  if s.m_paused == paused then
    (s, [])
  else
    let id := getAudioStreamDevice s.m_device_stream
    let call := if paused then Event.pauseDevice id else Event.resumeDevice id
    ({ s with m_paused := paused }, [call, Event.setPausedFlag paused])

/-- `SDLAudioStream::CloseDevice`: destroy the device stream, null the handle
and zero the recorded buffer size. (The scratch array member is not touched.) -/
def CloseDevice (s : StreamState) : StreamState :=
  { s with m_device_stream := none, m_sample_buffer_size := 0 }

/-- Default parameters used by the concrete example states below. -/
def exampleParams : AudioStreamParameters :=
  { expansion_mode := .Disabled
    buffer_ms := 10
    output_latency_ms := 20
    minimal_output_latency := false }

/-- A concrete open stereo stream whose recorded buffer capacity is 4 frames. -/
def stereoSmallState : StreamState :=
  { m_sample_rate := 48000
    m_output_channels := 2
    m_parameters := exampleParams
    m_device_stream := some 1
    m_sample_buffer := some 4
    m_sample_buffer_size := 4 }

/-- A concrete open 5.1 stream (6 output channels, capacity 1024 frames). -/
def surround51State : StreamState :=
  { m_sample_rate := 48000
    m_output_channels := 6
    m_parameters := { exampleParams with expansion_mode := .Surround51 }
    m_device_stream := some 1
    m_sample_buffer := some 1024
    m_sample_buffer_size := 1024 }

/-- A concrete closed (never successfully opened) stream. -/
def closedState : StreamState :=
  initialState 48000 2 exampleParams

/-- A concrete open stream holding a 256-element scratch allocation. -/
def openWithBufferState : StreamState :=
  { m_sample_rate := 48000
    m_output_channels := 2
    m_parameters := exampleParams
    m_device_stream := some 1
    m_sample_buffer := some 256
    m_sample_buffer_size := 256 }

/-- Claim C1: every callback invocation pulls from `ReadFrames` exactly
`min(derived frame count, recorded capacity)` frames; hence the pulled frame
count never exceeds the recorded capacity, and when the derived count exceeds
the capacity, exactly the capacity is pulled and a diagnostic warning is
emitted. -/
theorem C1_callback_clamps_to_capacity (s : StreamState) (len : Nat) :
    (AudioCallback s len).framesRead =
      min (CalculateSampleCount s len) s.m_sample_buffer_size ∧
    (AudioCallback s len).framesRead ≤ s.m_sample_buffer_size ∧
    (CalculateSampleCount s len > s.m_sample_buffer_size →
      (AudioCallback s len).framesRead = s.m_sample_buffer_size ∧
      (AudioCallback s len).warned = true) := by
  by_cases h : CalculateSampleCount s len > s.m_sample_buffer_size <;>
    simp [AudioCallback, h] <;> omega

/-- Witness for C1 at a concrete over-request: a stereo stream of capacity 4
asked for 32 bytes (8 frames) pulls exactly 4 frames and warns. -/
theorem C1_callback_clamps_to_capacity_witness :
    (AudioCallback stereoSmallState 32).framesRead =
      stereoSmallState.m_sample_buffer_size ∧
    (AudioCallback stereoSmallState 32).warned = true :=
  (C1_callback_clamps_to_capacity stereoSmallState 32).2.2 (by decide)

/-- Claim C3: the callback converts bytes to frames as
`bytes / sizeof(SampleType) / channels` with integer division; with 6 output
channels a 2048-byte request derives `2048 / 2 / 6 = 170` frames, and when
the capacity allows it, exactly 170 frames are pulled from the producer. -/
theorem C3_bytes_to_frames_surround51 (s : StreamState)
    (hch : s.m_output_channels = 6) (hcap : 170 ≤ s.m_sample_buffer_size) :
    CalculateSampleCount s 2048 = 2048 / sizeofSampleType / 6 ∧
    CalculateSampleCount s 2048 = 170 ∧
    (AudioCallback s 2048).framesRead = 170 := by
  have hval : CalculateSampleCount s 2048 = 170 := by
    unfold CalculateSampleCount sizeofSampleType
    rw [hch]
  refine ⟨by unfold CalculateSampleCount sizeofSampleType; rw [hch], hval, ?_⟩
  unfold AudioCallback
  rw [hval]
  have : ¬ (170 > s.m_sample_buffer_size) := by omega
  simp only [this, if_false, if_neg, hval]

/-- Witness for C3 on the concrete 5.1 stream with capacity 1024. -/
theorem C3_bytes_to_frames_surround51_witness :
    CalculateSampleCount surround51State 2048 = 170 ∧
    (AudioCallback surround51State 2048).framesRead = 170 :=
  ⟨(C3_bytes_to_frames_surround51 surround51State rfl (by decide)).2.1,
   (C3_bytes_to_frames_surround51 surround51State rfl (by decide)).2.2⟩

/-- Claim C8: the static reader table is total over the enumerated expansion
modes: it has exactly `Count = 6` entries, every mode's ordinal indexes it
in-bounds, and the entry at each mode's ordinal is the one reader registered
for exactly that mode (distinct modes hit distinct slots). -/
theorem C8_reader_table_total :
    sample_readers.length = AudioExpansionMode.countModes ∧
    (∀ m : AudioExpansionMode, m.toOrdinal < sample_readers.length) ∧
    (∀ m : AudioExpansionMode, (tableEntry m).modeOf = m) ∧
    (∀ m m2 : AudioExpansionMode, m.toOrdinal = m2.toOrdinal → m = m2) := by
  refine ⟨rfl, ?_, ?_, ?_⟩
  · intro m
    cases m <;> decide
  · intro m
    cases m <;> decide
  · intro m m2
    cases m <;> cases m2 <;> decide

/-- Backend responses of the C2 scenario: the device opens and negotiation
reports an actual granularity of 1024 frames. -/
def negotiated1024Backend : BackendOpen :=
  { openResult := some 1
    deviceFormatOk := true
    obtainedSampleFrames := 1024 }

/-- Backend responses where `SDL_OpenAudioDeviceStream` returns null. -/
def openFailBackend : BackendOpen :=
  { openResult := none
    deviceFormatOk := false
    obtainedSampleFrames := 0 }

/-- Backend responses where the device opens but the subsequent
`SDL_GetAudioDeviceFormat` query fails. -/
def formatFailBackend : BackendOpen :=
  { openResult := some 1
    deviceFormatOk := false
    obtainedSampleFrames := 1024 }

/-- Claim C2 (code bug): in the spec scenario (48000 Hz, 2 output channels,
mode Disabled, 20 ms latency → 960-frame hint; backend negotiates an actual
granularity of 1024 frames) the code records a capacity of
`CalculateSampleCount(1024) = 1024 / 2 / 2 = 256`, not the negotiated 1024:
the bytes-to-frames conversion is applied to a value that is already a frame
count. The scratch allocation then holds 256 `SampleType` elements, yet a
full-buffer callback (1024 frames = 4096 bytes) makes `ReadFrames` write
256 frames * 2 channels = 512 samples into it. -/
theorem C2_capacity_is_not_negotiated_granularity :
    (OpenDevice (initialState 48000 2 exampleParams) negotiated1024Backend).hintFrames = 960 ∧
    (OpenDevice (initialState 48000 2 exampleParams) negotiated1024Backend).success = true ∧
    (OpenDevice (initialState 48000 2 exampleParams) negotiated1024Backend).state.m_sample_buffer_size = 256 ∧
    (OpenDevice (initialState 48000 2 exampleParams) negotiated1024Backend).state.m_sample_buffer_size ≠ 1024 ∧
    (OpenDevice (initialState 48000 2 exampleParams) negotiated1024Backend).state.m_sample_buffer = some 256 ∧
    (AudioCallback (OpenDevice (initialState 48000 2 exampleParams) negotiated1024Backend).state 4096).samplesWritten = 512 := by
  decide

/-- Claim C4: when `SDL_OpenAudioDeviceStream` rejects the negotiation,
`OpenDevice` on a freshly constructed stream returns failure with the error
set, and the object is fully closed: null device handle, no scratch
allocation, zero capacity. `CreateSDLAudioStream` then returns no object,
as it also does when the SDL audio subsystem fails to come up. -/
theorem C4_failed_open_leaves_stream_closed (rate channels : Nat)
    (p : AudioStreamParameters) (b : BackendOpen) (hb : b.openResult = none) :
    (OpenDevice (initialState rate channels p) b).success = false ∧
    (OpenDevice (initialState rate channels p) b).errorSet = true ∧
    (OpenDevice (initialState rate channels p) b).state.m_device_stream = none ∧
    (OpenDevice (initialState rate channels p) b).state.m_sample_buffer = none ∧
    (OpenDevice (initialState rate channels p) b).state.m_sample_buffer_size = 0 ∧
    CreateSDLAudioStream true rate channels p b = none ∧
    CreateSDLAudioStream false rate channels p b = none := by
  simp [OpenDevice, CreateSDLAudioStream, initialState, hb]

/-- Witness for C4 at a concrete rejected negotiation. -/
theorem C4_failed_open_leaves_stream_closed_witness :
    (OpenDevice (initialState 48000 2 exampleParams) openFailBackend).success = false ∧
    CreateSDLAudioStream true 48000 2 exampleParams openFailBackend = none :=
  ⟨(C4_failed_open_leaves_stream_closed 48000 2 exampleParams openFailBackend rfl).1,
   (C4_failed_open_leaves_stream_closed 48000 2 exampleParams openFailBackend rfl).2.2.2.2.2.1⟩

/-- Claim C5: the frame-count hint handed to the backend is computed from
exactly one of the two configured latency sources: from `buffer_ms` when the
minimal-output-latency flag is set, and from `output_latency_ms` when it is
not — never from a combination of both. -/
theorem C5_hint_uses_exactly_one_latency_source (s : StreamState) (b : BackendOpen) :
    (s.m_parameters.minimal_output_latency = true →
      (OpenDevice s b).hintFrames =
        GetBufferSizeForMS s.m_sample_rate s.m_parameters.buffer_ms) ∧
    (s.m_parameters.minimal_output_latency = false →
      (OpenDevice s b).hintFrames =
        GetBufferSizeForMS s.m_sample_rate s.m_parameters.output_latency_ms) := by
  constructor <;> intro h <;> cases hb : b.openResult <;> simp [OpenDevice, h, hb]

/-- A fresh stream configured with the minimal-output-latency flag set. -/
def minimalLatencyState : StreamState :=
  initialState 48000 2 { exampleParams with minimal_output_latency := true }

/-- Witness for C5: with the flag set, the hint comes from buffer_ms = 10 ms. -/
theorem C5_hint_uses_exactly_one_latency_source_witness :
    (OpenDevice minimalLatencyState openFailBackend).hintFrames =
      GetBufferSizeForMS 48000 10 :=
  (C5_hint_uses_exactly_one_latency_source minimalLatencyState openFailBackend).1 rfl

/-- Claim C6: `SetPaused` is a no-op (no backend call, no state change) when
the requested state equals the recorded one; two consecutive `SetPaused true`
calls from the unpaused state make exactly one backend pause call; and when
the states differ, the backend call is issued first and the recorded flag is
written only afterwards, ending with the flag equal to the request. -/
theorem C6_set_paused_idempotent_and_ordered (s : StreamState) (b : Bool) :
    (s.m_paused = b → SetPaused s b = (s, [])) ∧
    (s.m_paused = false →
      pauseCallCount ((SetPaused s true).2 ++
        (SetPaused (SetPaused s true).1 true).2) = 1) ∧
    (s.m_paused ≠ b →
      (SetPaused s b).2 =
        [if b then Event.pauseDevice (getAudioStreamDevice s.m_device_stream)
         else Event.resumeDevice (getAudioStreamDevice s.m_device_stream),
         Event.setPausedFlag b] ∧
      (SetPaused s b).1.m_paused = b) := by
  refine ⟨?_, ?_, ?_⟩
  · intro h
    simp [SetPaused, h]
  · intro h
    simp [SetPaused, h, pauseCallCount, Event.isPauseCall]
  · intro h
    have hb : (s.m_paused == b) = false := beq_eq_false_iff_ne.mpr h
    simp [SetPaused, hb]

/-- Witness for C6: double pause from the concrete unpaused stream yields one
backend pause call. -/
theorem C6_set_paused_idempotent_and_ordered_witness :
    pauseCallCount ((SetPaused stereoSmallState true).2 ++
      (SetPaused (SetPaused stereoSmallState true).1 true).2) = 1 :=
  (C6_set_paused_idempotent_and_ordered stereoSmallState true).2.1 rfl

/-- Claim C7 counterexample: on a concrete open stream holding a 256-element
scratch allocation, `CloseDevice` nulls the device handle and zeroes the
recorded capacity, but the scratch allocation is still present afterwards —
refuting that the device handle and the sample buffer are destroyed
together. -/
theorem C7_counterexample_buffer_survives_close :
    (CloseDevice openWithBufferState).m_device_stream = none ∧
    (CloseDevice openWithBufferState).m_sample_buffer_size = 0 ∧
    (CloseDevice openWithBufferState).m_sample_buffer = some 256 ∧
    some 256 ≠ (none : Option Nat) := by
  decide

/-- Claim C7 as amended: after `CloseDevice` returns, the device handle has
been destroyed and is null and the recorded scratch-buffer capacity is zero
(the stream reports itself closed), but the scratch allocation member is left
unchanged — it is released only on reopen or at object destruction. -/
theorem C7_close_device_amended (s : StreamState) :
    (CloseDevice s).m_device_stream = none ∧
    IsOpen (CloseDevice s) = false ∧
    (CloseDevice s).m_sample_buffer_size = 0 ∧
    (CloseDevice s).m_sample_buffer = s.m_sample_buffer := by
  simp [CloseDevice, IsOpen]

/-- Witness for the amended C7 on the concrete open stream. -/
theorem C7_close_device_amended_witness :
    (CloseDevice openWithBufferState).m_device_stream = none ∧
    (CloseDevice openWithBufferState).m_sample_buffer =
      openWithBufferState.m_sample_buffer :=
  ⟨(C7_close_device_amended openWithBufferState).1,
   (C7_close_device_amended openWithBufferState).2.2.2⟩

/-- Witness for C8 at a concrete mode: the Surround51 slot holds the
Surround51 reader. -/
theorem C8_reader_table_total_witness :
    (tableEntry AudioExpansionMode.Surround51).modeOf =
      AudioExpansionMode.Surround51 :=
  C8_reader_table_total.2.2.1 AudioExpansionMode.Surround51

/-- Claim C9: on a stream whose device handle is null (e.g. after a failed
open), the stream reports itself closed; `SetPaused` with the already
recorded state is a pure no-op, and with a differing state the backend call
carries the invalid device id 0 (what SDL returns for a null stream, which
the backend rejects) — the absent device stream is never dereferenced. -/
theorem C9_set_paused_on_closed_stream (s : StreamState)
    (hclosed : s.m_device_stream = none) :
    IsOpen s = false ∧
    (∀ b, s.m_paused = b → SetPaused s b = (s, [])) ∧
    (∀ b, s.m_paused ≠ b →
      (SetPaused s b).2 =
        [if b then Event.pauseDevice 0 else Event.resumeDevice 0,
         Event.setPausedFlag b]) := by
  refine ⟨by simp [IsOpen, hclosed], ?_, ?_⟩
  · intro b h
    simp [SetPaused, h]
  · intro b h
    have hb : (s.m_paused == b) = false := beq_eq_false_iff_ne.mpr h
    simp [SetPaused, hb, getAudioStreamDevice, hclosed]

/-- Witness for C9 on the concrete never-opened stream. -/
theorem C9_set_paused_on_closed_stream_witness :
    IsOpen closedState = false ∧
    SetPaused closedState false = (closedState, []) ∧
    (SetPaused closedState true).2 =
      [Event.pauseDevice 0, Event.setPausedFlag true] :=
  ⟨(C9_set_paused_on_closed_stream closedState rfl).1,
   (C9_set_paused_on_closed_stream closedState rfl).2.1 false rfl,
   (C9_set_paused_on_closed_stream closedState rfl).2.2 true (by decide)⟩

/-- Claim C10: when the device opens but the device-format query fails,
`OpenDevice` still returns success; the stream is open with the local frame
count left at its zero initialization, so the recorded capacity is zero and
every subsequent callback clamps its request to zero frames. -/
theorem C10_format_query_failure_opens_silent_stream (rate channels : Nat)
    (p : AudioStreamParameters) (handle : Nat) (b : BackendOpen)
    (hopen : b.openResult = some handle) (hfmt : b.deviceFormatOk = false) :
    (OpenDevice (initialState rate channels p) b).success = true ∧
    IsOpen (OpenDevice (initialState rate channels p) b).state = true ∧
    (OpenDevice (initialState rate channels p) b).state.m_sample_buffer_size = 0 ∧
    (∀ len,
      (AudioCallback (OpenDevice (initialState rate channels p) b).state len).framesRead = 0) := by
  have hsize : (OpenDevice (initialState rate channels p) b).state.m_sample_buffer_size = 0 := by
    simp [OpenDevice, hopen, hfmt, CalculateSampleCount, initialState]
  refine ⟨by simp [OpenDevice, hopen], by simp [OpenDevice, hopen, IsOpen], hsize, ?_⟩
  intro len
  by_cases h : 0 < CalculateSampleCount (OpenDevice (initialState rate channels p) b).state len
  · simp [AudioCallback, h, hsize]
  · simp [AudioCallback, h, hsize]
    omega

/-- Witness for C10 at a concrete format-query failure. -/
theorem C10_format_query_failure_opens_silent_stream_witness :
    (OpenDevice (initialState 48000 2 exampleParams) formatFailBackend).success = true ∧
    (OpenDevice (initialState 48000 2 exampleParams) formatFailBackend).state.m_sample_buffer_size = 0 ∧
    (AudioCallback (OpenDevice (initialState 48000 2 exampleParams) formatFailBackend).state 4096).framesRead = 0 :=
  ⟨(C10_format_query_failure_opens_silent_stream 48000 2 exampleParams 1 formatFailBackend rfl rfl).1,
   (C10_format_query_failure_opens_silent_stream 48000 2 exampleParams 1 formatFailBackend rfl rfl).2.2.1,
   (C10_format_query_failure_opens_silent_stream 48000 2 exampleParams 1 formatFailBackend rfl rfl).2.2.2 4096⟩

end SDLAudio
